import Mathlib

/-!
Verification development for the docLearn chunk-processing pipeline
(`main.py`).  The pipeline extracts risk-annotated legal clauses from a
document: the text is split into chunks (external collaborator), each chunk
is sent to a generative model with a role/jurisdiction prompt, the raw
response is parsed tolerantly, and a conditional second refinement pass runs
when more than 50 non-error clauses were collected.

The embedding below follows the source (`process_chunk`, `process_document`)
line by line.  External collaborators (text extraction, chunking, the
generative model and the JSON decoder applied to its output) are modelled as
parameters: an environment supplies the extracted text, the chunk list, and
per-chunk model outcomes for each pass.  The durable output artifact
(`output.jsonl`) is modelled as the list of records written to it, in order;
truncation (`open(..., "w")`) resets it to `[]`, appending a line appends a
record.
-/

/-- A clause record, the shape produced by the model / the fallback path:
`{clause_number, clause_text, clause_risk, negotiation}` (all strings in the
source; `clause_risk` uses the literal `"very high"` spelling, with a space,
wherever the source compares it). -/
structure Clause where
  clause_number : String
  clause_text : String
  clause_risk : String
  negotiation : String
deriving DecidableEq, BEq, Repr

/-- A record flowing through the pipeline: either a Clause-shaped dict or an
ErrorRecord `{"error": msg}`.  The source distinguishes them by the presence
of the `"error"` key (`"error" not in c`). -/
inductive Record where
  | clause (c : Clause)
  | error (msg : String)
deriving DecidableEq, BEq, Repr

/-- `"error" in c` in the source. -/
def Record.isError : Record → Bool
  | Record.error _ => true
  | Record.clause _ => false

/-- `c.get("clause_risk")` in the source: `None` for a record without the
key (an ErrorRecord), the stored string otherwise. -/
def Record.risk : Record → Option String
  | Record.clause c => some c.clause_risk
  | Record.error _ => none

/-- `x["clause_number"]`, the sort key used on very-high-risk candidate
lists.  Such lists contain only Clause records (they are filtered by
`clause_risk == "very high"`), so the ErrorRecord case is unreachable there;
it is given a harmless default. -/
def Record.number : Record → String
  | Record.clause c => c.clause_number
  | Record.error _ => ""

/-- Fixed middle segment of the final-pass prompt (between the jurisdiction
and the chunk text), transcribed from the first f-string in
`process_chunk`. -/
def finalPromptMid : String :=
  ", extract concise numbered clauses from the legal text. Club short clauses under the same topic (e.g., liability, penalties, obligations) into a single clause with combined text. " ++
  "Assess their risk (low, medium, high, very high). Very high risk includes clauses with severe financial, legal, or operational impact (e.g., unlimited liability, strict penalties). " ++
  "Return a JSON list of objects with: \x27clause_number\x27 (string, use the first number if clubbing), \x27clause_text\x27 (string, concise and combined for same-topic clauses), " ++
  "\x27clause_risk\x27 (low, medium, high, very high), \x27negotiation\x27 (\x27NIL\x27 for low/medium/high risk, concise negotiation suggestion for very high risk). Ensure valid JSON output. " ++
  "Example: [\x7b\"clause_number\": \"1\", \"clause_text\": \"Combined liability clauses...\", \"clause_risk\": \"very high\", \"negotiation\": \"Limit liability...\"\x7d]. " ++
  "Text: "

/-- Fixed middle segment of the standard (non-final-pass) prompt, transcribed
from the second f-string in `process_chunk`. -/
def standardPromptMid : String :=
  ", extract concise numbered clauses from the legal text. Club short clauses under the same topic (e.g., liability, penalties, obligations) into a single clause with combined text. " ++
  "Assess their risk (low, medium, high, very high). Very high risk includes clauses with severe financial, legal, or operational impact (e.g., unlimited liability, strict penalties). " ++
  "Return a JSON list of objects with: \x27clause_number\x27 (string, use the first number if clubbing), \x27clause_text\x27 (string, concise and combined for same-topic clauses), " ++
  "\x27clause_risk\x27 (low, medium, high, very high), \x27negotiation\x27 (\x27NIL\x27 for all risks). Ensure valid JSON output. " ++
  "Example: [\x7b\"clause_number\": \"1\", \"clause_text\": \"Combined liability clauses...\", \"clause_risk\": \"very high\", \"negotiation\": \"NIL\"\x7d]. " ++
  "Text: "

/-- Prompt construction at the top of `process_chunk`:
`if is_final_pass and total_clauses > 50:` selects the variant that asks for
a concrete negotiation suggestion on very-high-risk clauses; every other
combination selects the variant that asks for the literal NIL marker for all
risks.  Pure function of its inputs. -/
def build_prompt (role jurisdiction chunk : String) (is_final_pass : Bool)
    (total_clauses : Nat) : String :=
  if is_final_pass ∧ total_clauses > 50 then
    "As a " ++ role ++ " in " ++ jurisdiction ++ finalPromptMid ++ chunk
  else
    "As a " ++ role ++ " in " ++ jurisdiction ++ standardPromptMid ++ chunk

/-- Failure classes raised by the model invocation, as classified by the
retry predicate in the source: the two designated transient classes, and
everything else. -/
inductive ExcClass where
  | resourceExhausted
  | serviceUnavailable
  | other
deriving DecidableEq, Repr

/-- Outcome of one model invocation for one chunk, after streaming
accumulation, response cleaning and the `json.loads` attempt:
* `parsed rs` — the cleaned response decoded to a JSON list (records of the
  list, Clause-shaped or `{"error": ...}`-shaped);
* `decodeError` — `json.loads` raised `JSONDecodeError`;
* `exc cls msg` — the invocation itself raised (`str(e) = msg`). -/
inductive ModelOutcome where
  | parsed (records : List Record)
  | decodeError
  | exc (cls : ExcClass) (msg : String)
deriving DecidableEq, Repr

/-- The fallback clause synthesized on a JSON decode error
(`chunk[:1000]` truncation). -/
def fallback_clause (chunk : String) : Clause :=
  { clause_number := "unknown"
    clause_text := chunk.take 1000
    clause_risk := "medium"
    negotiation := "NIL" }

/-- One call of `process_chunk` (body including its `try/except` blocks).
Arguments mirror the source (`model` is replaced by the invocation
`outcome`, `output_file` is the artifact state).  Returns the new artifact
state and the value returned to the caller.  Every branch of the body
returns normally: the outer `except Exception` catches every exception the
invocation can raise, including `ResourceExhausted` and
`ServiceUnavailable`. -/
def process_chunk (chunk role jurisdiction : String) (is_final_pass : Bool)
    (total_clauses : Nat) (outcome : ModelOutcome) (output_file : List Record) :
    List Record × List Record :=
  let _prompt := build_prompt role jurisdiction chunk is_final_pass total_clauses
  match outcome with
  | ModelOutcome.parsed clauses =>
      if clauses = [] then
        (output_file ++ [Record.error "No clauses found in chunk"], clauses)
      else if is_final_pass then
        (output_file ++ clauses, clauses)
      else
        (output_file, clauses)
  | ModelOutcome.decodeError =>
      (if is_final_pass then
        output_file ++ [Record.clause (fallback_clause chunk)]
      else output_file,
       [Record.clause (fallback_clause chunk)])
  | ModelOutcome.exc _ msg =>
      (if is_final_pass then
        output_file ++ [Record.error ("Processing error: " ++ msg)]
      else output_file,
       [])

/-- Environment of one `process_document` run: everything supplied by the
external collaborators.  `text` is `extract_text(file_path)` (empty string
models "no text extracted", the falsy value tested by `if not text:`);
`chunks` is `chunk_text(text, chunk_size)`; `pass1 i` / `pass2 i` is the
model-and-decode outcome for chunk index `i` during the first / second
pass. -/
structure RunEnv where
  role : String
  jurisdiction : String
  text : String
  chunks : List String
  pass1 : Nat → ModelOutcome
  pass2 : Nat → ModelOutcome

/-- One pass of the chunk loop in `process_document`: process the chunks in
order, threading the artifact state, and concatenate the per-chunk returned
lists (`all_clauses.extend(clauses)`).  `i` is the index of the first chunk
in `chunks` within the whole document (the loop starts it at 0). -/
def run_pass (role jurisdiction : String) (is_final_pass : Bool)
    (total_clauses : Nat) (oracle : Nat → ModelOutcome) :
    List String → Nat → List Record → List Record × List Record
  | [], _, output_file => (output_file, [])
  | chunk :: rest, i, output_file =>
      let step := process_chunk chunk role jurisdiction is_final_pass
        total_clauses (oracle i) output_file
      let restRes := run_pass role jurisdiction is_final_pass total_clauses
        oracle rest (i + 1) step.1
      (restRes.1, step.2 ++ restRes.2)

/-- The first pass over the chunks (`is_final_pass=False`, default
`total_clauses=0`), started on the freshly truncated artifact. -/
def first_pass (env : RunEnv) : List Record × List Record :=
  run_pass env.role env.jurisdiction false 0 env.pass1 env.chunks 0 []

/-- `all_clauses` after the first pass. -/
def all_clauses (env : RunEnv) : List Record :=
  (first_pass env).2

/-- `total_clauses = len([c for c in all_clauses if "error" not in c])`. -/
def total_clauses (env : RunEnv) : Nat :=
  ((all_clauses env).filter (fun c => !c.isError)).length

/-- The second (refinement) pass over the chunks
(`is_final_pass=True, total_clauses=total_clauses`), started on the
artifact truncated by `open(output_file, "w")`. -/
def second_pass (env : RunEnv) : List Record × List Record :=
  run_pass env.role env.jurisdiction true (total_clauses env) env.pass2
    env.chunks 0 []

/-- Lexicographic less-or-equal on character lists, comparing code points:
the order Python uses for `str` comparison (also the order of the Lean
`String` instances, written out so it evaluates by kernel reduction). -/
def charListLe : List Char → List Char → Bool
  | [], _ => true
  | _ :: _, [] => false
  | a :: as, b :: bs =>
      if a.toNat < b.toNat then true
      else if b.toNat < a.toNat then false
      else charListLe as bs

/-- The Python comparison `a <= b` on strings: lexicographic on code points. -/
def strLe (a b : String) : Bool := charListLe a.data b.data

/-- Stable ascending insertion of a record into a list already sorted by the
`clause_number` key: the new record goes after every record whose key is
less than or equal to its own.  Helper for `py_sorted_by_number`. -/
def insert_by_number (a : Record) : List Record → List Record
  | [] => [a]
  | b :: t =>
      if strLe b.number a.number then b :: insert_by_number a t
      else a :: b :: t

/-- Modelled from the spec: the Python built-in
`sorted(xs, key=lambda x: x["clause_number"])` (an external library
routine), i.e. the stable ascending sort of the list by the string key
`clause_number` under lexicographic string comparison.  Implemented as a
stable insertion sort, which computes exactly that function. -/
def py_sorted_by_number (l : List Record) : List Record :=
  l.foldl (fun acc x => insert_by_number x acc) []

/-- `very_high_clauses` at the end of the refinement pass: the pass-2
records whose `clause_risk` is `"very high"`, sorted by `clause_number` and
truncated to the first 50 (`sorted(...)[:50]`).  Collecting
`[c for c in clauses if c.get("clause_risk") == "very high"]` per chunk and
extending is the same as filtering the concatenation. -/
def very_high_clauses (env : RunEnv) : List Record :=
  (py_sorted_by_number
    ((second_pass env).2.filter (fun c => c.risk == some "very high"))).take 50

/-- `other_clauses = [c for c in all_clauses if c.get("clause_risk") !=
"very high" or c in very_high_clauses]`. -/
def other_clauses (env : RunEnv) : List Record :=
  (all_clauses env).filter
    (fun c => !(c.risk == some "very high") || (very_high_clauses env).contains c)

/-- Parameters of one `process_chunk` call made by the refinement loop
(instrumentation: the loop at line 107-108 passes each chunk with
`is_final_pass=True` and the fixed pass-1 `total_clauses` count). -/
structure PassParams where
  chunk : String
  is_final_pass : Bool
  total_clauses : Nat
deriving DecidableEq, Repr

/-- Result of `process_document`: the final artifact content (`file`), the
value returned to the caller (`ret`), whether the refinement branch was
taken (`refined`), and the parameters of the refinement-pass `process_chunk`
calls (`pass2Params`, empty when no refinement pass ran). -/
structure RunResult where
  file : List Record
  ret : List Record
  refined : Bool
  pass2Params : List PassParams
deriving Repr

/-- `process_document`, following the source: truncate the artifact; on
empty text append the single ErrorRecord and return `[]`; otherwise run
pass 1 accumulating `all_clauses`; if more than 50 non-error records were
accumulated, truncate the artifact, run the refinement pass (which writes
incrementally), select the very-high candidates, and append
`other_clauses + very_high_clauses` minus ErrorRecords; else append
`all_clauses` minus ErrorRecords.  In both branches `all_clauses` itself is
returned. -/
def process_document (env : RunEnv) : RunResult :=
  if env.text.isEmpty then
    { file := [Record.error "No text extracted from document"]
      ret := []
      refined := false
      pass2Params := [] }
  else if total_clauses env > 50 then
    { file := (second_pass env).1 ++
        ((other_clauses env ++ very_high_clauses env).filter (fun c => !c.isError))
      ret := all_clauses env
      refined := true
      pass2Params := env.chunks.map
        (fun ch => { chunk := ch, is_final_pass := true,
                     total_clauses := total_clauses env }) }
  else
    { file := (first_pass env).1 ++
        ((all_clauses env).filter (fun c => !c.isError))
      ret := all_clauses env
      refined := false
      pass2Params := [] }

/-- Bool check that a record list is ascending by the `clause_number` key
(adjacent-pairs chain, lexicographic string order). -/
def sortedByNumber : List Record → Bool
  | [] => true
  | [_] => true
  | a :: b :: t => strLe a.number b.number && sortedByNumber (b :: t)

/-- The very-high-risk subset of a record list (the records whose
`clause_risk` is the literal `"very high"`). -/
def veryHighOf (l : List Record) : List Record :=
  l.filter (fun c => c.risk == some "very high")

/-! ## The tenacity retry wrapper around `process_chunk`

`process_chunk` is decorated with
`@retry(stop=stop_after_attempt(3), wait=wait_exponential(multiplier=1, min=1,
max=10), retry=retry_if_exception_type((ResourceExhausted, ServiceUnavailable)))`.
Tenacity re-invokes the wrapped coroutine only when it raises an exception
matched by the retry predicate, up to the attempt bound.  The wrapped body
is modelled as a function from the attempt number to a Python-style result
(normal return or raised exception). -/

/-- Result of one Python call: a normal return or a raised exception. -/
inductive PyResult (α : Type) where
  | ok (val : α)
  | raised (cls : ExcClass) (msg : String)
deriving Repr

/-- The configuration of the `@retry` decorator on `process_chunk`. -/
structure RetryPolicy where
  stop_after_attempts : Nat
  wait_multiplier : Nat
  wait_min : Nat
  wait_max : Nat
  retry_on : ExcClass → Bool

/-- `stop_after_attempt(3)`, `wait_exponential(multiplier=1, min=1, max=10)`,
`retry_if_exception_type((ResourceExhausted, ServiceUnavailable))`. -/
def process_chunk_retry_policy : RetryPolicy :=
  { stop_after_attempts := 3
    wait_multiplier := 1
    wait_min := 1
    wait_max := 10
    retry_on := fun e => match e with
      | ExcClass.resourceExhausted => true
      | ExcClass.serviceUnavailable => true
      | ExcClass.other => false }

/-- The tenacity attempt loop: run the body; on a normal return stop; on a
raised exception retry while the predicate matches and attempts remain
(`remaining` counts the retries still allowed), otherwise propagate.
Returns the final result and the number of attempts made. -/
def tenacity_go {α : Type} (pol : RetryPolicy) (body : Nat → PyResult α)
    (attempt : Nat) : Nat → PyResult α × Nat
  | 0 => (body attempt, attempt)
  | n + 1 =>
      match body attempt with
      | PyResult.ok v => (PyResult.ok v, attempt)
      | PyResult.raised c m =>
          if pol.retry_on c then tenacity_go pol body (attempt + 1) n
          else (PyResult.raised c m, attempt)

/-- A call of a tenacity-decorated function: attempts start at 1, at most
`stop_after_attempts` of them. -/
def tenacity_call {α : Type} (pol : RetryPolicy) (body : Nat → PyResult α) :
    PyResult α × Nat :=
  tenacity_go pol body 1 (pol.stop_after_attempts - 1)

/-- One attempt of the decorated `process_chunk`: the `try` block of the body
wraps the model invocation, and its `except Exception` clause catches every
exception class — `ResourceExhausted` and `ServiceUnavailable` included,
both being `Exception` subclasses — turning it into a normal return.  So an
attempt never raises, whatever the model outcome of that attempt is.
`outcomes attempt` is the model outcome the attempt would observe. -/
def process_chunk_attempt (chunk role jurisdiction : String)
    (is_final_pass : Bool) (total_clauses : Nat)
    (outcomes : Nat → ModelOutcome) (output_file : List Record)
    (attempt : Nat) : PyResult (List Record × List Record) :=
  PyResult.ok
    (process_chunk chunk role jurisdiction is_final_pass total_clauses
      (outcomes attempt) output_file)

/-- The decorated `process_chunk` as actually invoked by the orchestrator:
the tenacity wrapper applied to the attempt body. -/
def process_chunk_retried (chunk role jurisdiction : String)
    (is_final_pass : Bool) (total_clauses : Nat)
    (outcomes : Nat → ModelOutcome) (output_file : List Record) :
    PyResult (List Record × List Record) × Nat :=
  tenacity_call process_chunk_retry_policy
    (process_chunk_attempt chunk role jurisdiction is_final_pass total_clauses
      outcomes output_file)

/-! ## Phrase containment, for the prompt-variant claims -/

/-- `pat` is a prefix of `s` (on character lists). -/
def charsStartWith : List Char → List Char → Bool
  | [], _ => true
  | _ :: _, [] => false
  | p :: ps, c :: cs => p == c && charsStartWith ps cs

/-- `pat` occurs contiguously somewhere in `s` (on character lists). -/
def charsContain (pat : List Char) : List Char → Bool
  | [] => charsStartWith pat []
  | c :: cs => charsStartWith pat (c :: cs) || charsContain pat cs

/-- `phrase in s` for strings. -/
def containsPhrase (s phrase : String) : Bool :=
  charsContain phrase.data s.data

/-- Modelled from the spec: the instruction "requests a concrete negotiation
suggestion for `very_high` risk clauses" — the prompt carries the
suggestion-requesting wording of the final-pass instruction. -/
def requestsNegotiationSuggestion (prompt : String) : Bool :=
  containsPhrase prompt "concise negotiation suggestion for very high risk"

/-- Modelled from the spec: the instruction "requests the literal \"NIL\"
for every clause regardless of risk" — the prompt carries the
NIL-for-all-risks wording of the standard instruction. -/
def requestsNILForAll (prompt : String) : Bool :=
  containsPhrase prompt "\x27NIL\x27 for all risks"

/-! ## Derived notions used to state the claims -/

/-- The records written by the operative pass itself (before the final
append): the incremental writes of the refinement pass when it ran, the
writes of the first pass otherwise. -/
def pass_writes (env : RunEnv) : List Record :=
  if total_clauses env > 50 then (second_pass env).1 else (first_pass env).1

/-- The block appended to the artifact at the end of `process_document`
(ErrorRecords filtered out by `if "error" not in clause`). -/
def final_block (env : RunEnv) : List Record :=
  (if total_clauses env > 50 then other_clauses env ++ very_high_clauses env
   else all_clauses env).filter (fun c => !c.isError)

/-- Modelled from the spec (the claim C7 description of the return value):
the accumulated Clause sequence minus ErrorRecords — the pass-1 clauses
when no refinement occurred, the merged pass-1 + selected pass-2 result
when it did. -/
def claimed_return (env : RunEnv) : List Record :=
  (if total_clauses env > 50 then other_clauses env ++ very_high_clauses env
   else all_clauses env).filter (fun c => !c.isError)

/-! ## Concrete run environments used by counterexamples and witnesses -/

/-- 49 low-risk clauses numbered "3".."51", used to push pass-1 counts past
the 50-clause threshold. -/
def low_clauses_49 : List Record :=
  (List.range 49).map
    (fun i => Record.clause ⟨Nat.repr (i + 3), "t", "low", "NIL"⟩)

/-- 51 low-risk clauses numbered "1".."51". -/
def low_clauses_51 : List Record :=
  (List.range 51).map
    (fun i => Record.clause ⟨Nat.repr (i + 1), "t", "low", "NIL"⟩)

/-- Environment for claim C1: one chunk; pass 1 yields 51 clauses of which two are
very-high-risk, numbered "2" and "1" in that order; pass 2 yields the same
two very-high clauses (now carrying negotiation suggestions). -/
def envC1 : RunEnv :=
  { role := "client", jurisdiction := "India", text := "doc", chunks := ["c1"]
    pass1 := fun _ => ModelOutcome.parsed
      (Record.clause ⟨"2", "t", "very high", "NIL"⟩ ::
       Record.clause ⟨"1", "t", "very high", "NIL"⟩ :: low_clauses_49)
    pass2 := fun _ => ModelOutcome.parsed
      [Record.clause ⟨"2", "t", "very high", "Cap liability"⟩,
       Record.clause ⟨"1", "t", "very high", "Limit penalties"⟩] }

/-- Environment for claim C2: one chunk whose pass-1 response decodes to the empty
JSON list, so pass 1 writes a "No clauses found in chunk" ErrorRecord and
the run stays on the simple path with zero clauses. -/
def envC2 : RunEnv :=
  { role := "client", jurisdiction := "India", text := "doc", chunks := ["a"]
    pass1 := fun _ => ModelOutcome.parsed []
    pass2 := fun _ => ModelOutcome.parsed [] }

/-- Environment for claim C5, the scenario given in the spec: 60 chunks, each producing one
very-high-risk clause numbered "1".."60" in both passes (pass 2 adds the
negotiation suggestions). -/
def envC5 : RunEnv :=
  { role := "client", jurisdiction := "India", text := "doc"
    chunks := List.replicate 60 "c"
    pass1 := fun i => ModelOutcome.parsed
      [Record.clause ⟨Nat.repr (i + 1), "t", "very high", "NIL"⟩]
    pass2 := fun i => ModelOutcome.parsed
      [Record.clause ⟨Nat.repr (i + 1), "t", "very high", "Negotiate"⟩] }

/-- Environment for claim C6: pass 1 yields 51 clauses (refinement triggers); the
single pass-2 invocation raises a non-retryable exception, so the
refinement pass writes a "Processing error" ErrorRecord to the artifact. -/
def envC6 : RunEnv :=
  { role := "client", jurisdiction := "India", text := "doc", chunks := ["a"]
    pass1 := fun _ => ModelOutcome.parsed low_clauses_51
    pass2 := fun _ => ModelOutcome.exc ExcClass.other "boom" }

/-- Environment for claim C7: same shape as the C1 one — a refinement run in which the
merged pass-1 + selected pass-2 sequence differs from the pass-1
accumulation. -/
def envC7 : RunEnv :=
  { role := "client", jurisdiction := "India", text := "doc", chunks := ["c1"]
    pass1 := fun _ => ModelOutcome.parsed
      (Record.clause ⟨"2", "t", "very high", "NIL"⟩ ::
       Record.clause ⟨"1", "t", "very high", "NIL"⟩ :: low_clauses_49)
    pass2 := fun _ => ModelOutcome.parsed
      [Record.clause ⟨"2", "t", "very high", "Cap liability"⟩,
       Record.clause ⟨"1", "t", "very high", "Limit penalties"⟩] }

/-- Environment for claim C9: no text could be extracted from the document. -/
def envC9 : RunEnv :=
  { role := "client", jurisdiction := "India", text := "", chunks := []
    pass1 := fun _ => ModelOutcome.decodeError
    pass2 := fun _ => ModelOutcome.decodeError }

/-- Environment for claim C10: a refinement run (51 pass-1 clauses in one chunk). -/
def envC10 : RunEnv :=
  { role := "client", jurisdiction := "India", text := "doc", chunks := ["a"]
    pass1 := fun _ => ModelOutcome.parsed low_clauses_51
    pass2 := fun _ => ModelOutcome.parsed [] }

/-- The clause numbers claim C5 predicts for the final very-high subset:
"1" through "50", in string-sorted order. -/
def c5_claimed_numbers : List String :=
  ["1", "10", "11", "12", "13", "14", "15", "16", "17", "18", "19",
   "2", "20", "21", "22", "23", "24", "25", "26", "27", "28", "29",
   "3", "30", "31", "32", "33", "34", "35", "36", "37", "38", "39",
   "4", "40", "41", "42", "43", "44", "45", "46", "47", "48", "49",
   "5", "50", "6", "7", "8", "9"]

/-- The clause numbers the code actually selects in that scenario: the 50
lexicographically smallest of "1".."60" — "6", "7", "8", "9" are dropped
and "51".."54" are kept. -/
def c5_actual_numbers : List String :=
  ["1", "10", "11", "12", "13", "14", "15", "16", "17", "18", "19",
   "2", "20", "21", "22", "23", "24", "25", "26", "27", "28", "29",
   "3", "30", "31", "32", "33", "34", "35", "36", "37", "38", "39",
   "4", "40", "41", "42", "43", "44", "45", "46", "47", "48", "49",
   "5", "50", "51", "52", "53", "54"]

/-! ## General lemmas about the embedded operations -/

/-- The lexicographic comparison is total. -/
theorem charListLe_total : ∀ a b : List Char, charListLe a b = true ∨ charListLe b a = true
  | [], _ => Or.inl rfl
  | _ :: _, [] => Or.inr rfl
  | x :: xs, y :: ys => by
      by_cases h1 : x.toNat < y.toNat
      · exact Or.inl (by simp [charListLe, h1])
      · by_cases h2 : y.toNat < x.toNat
        · exact Or.inr (by simp [charListLe, h2])
        · cases charListLe_total xs ys with
          | inl h => exact Or.inl (by simp [charListLe, h1, h2, h])
          | inr h => exact Or.inr (by simp [charListLe, h1, h2, h])

/-- String comparison is total. -/
theorem strLe_total (a b : String) : strLe a b = true ∨ strLe b a = true :=
  charListLe_total a.data b.data

/-- Totality, contrapositive form. -/
theorem strLe_of_not_strLe {a b : String} (h : ¬ strLe a b = true) : strLe b a = true :=
  (strLe_total a b).resolve_left h

/-- Inserting into a list sorted by `clause_number` keeps it sorted. -/
theorem sortedByNumber_insert (a : Record) :
    ∀ l, sortedByNumber l = true → sortedByNumber (insert_by_number a l) = true
  | [], _ => rfl
  | [b], _ => by
      by_cases hba : strLe b.number a.number = true
      · simp [insert_by_number, hba, sortedByNumber]
      · have hab := strLe_of_not_strLe hba
        simp [insert_by_number, hba, sortedByNumber, hab]
  | b :: c :: t, h => by
      have h' := h
      simp only [sortedByNumber, Bool.and_eq_true] at h'
      have hbc : strLe b.number c.number = true := h'.1
      have hct : sortedByNumber (c :: t) = true := h'.2
      by_cases hba : strLe b.number a.number = true
      · by_cases hca : strLe c.number a.number = true
        · have ih := sortedByNumber_insert a (c :: t) hct
          have hins : insert_by_number a (c :: t) = c :: insert_by_number a t := by
            simp [insert_by_number, hca]
          rw [hins] at ih
          simp [insert_by_number, hba, hca, sortedByNumber, hbc, ih]
        · have hac : strLe a.number c.number = true := strLe_of_not_strLe hca
          simp [insert_by_number, hba, hca, sortedByNumber, hbc, hct, hac]
      · have hab : strLe a.number b.number = true := strLe_of_not_strLe hba
        simp [insert_by_number, hba, sortedByNumber, hab, hbc, hct]

/-- The insertion fold keeps sortedness. -/
theorem sortedByNumber_foldl_insert :
    ∀ (l acc : List Record), sortedByNumber acc = true →
      sortedByNumber (l.foldl (fun acc x => insert_by_number x acc) acc) = true
  | [], _, h => h
  | x :: xs, acc, h =>
      sortedByNumber_foldl_insert xs (insert_by_number x acc)
        (sortedByNumber_insert x acc h)

/-- The modelled Python sort produces a list sorted by `clause_number`. -/
theorem sortedByNumber_py_sorted (l : List Record) :
    sortedByNumber (py_sorted_by_number l) = true :=
  sortedByNumber_foldl_insert l [] rfl

/-- A prefix of a sorted list is sorted. -/
theorem sortedByNumber_take : ∀ (n : Nat) (l : List Record),
    sortedByNumber l = true → sortedByNumber (l.take n) = true
  | 0, _, _ => rfl
  | _ + 1, [], _ => rfl
  | _ + 1, [_], _ => by simp [sortedByNumber]
  | n + 1, a :: b :: t, h => by
      have h' := h
      simp only [sortedByNumber, Bool.and_eq_true] at h'
      cases n with
      | zero => simp [sortedByNumber]
      | succ m =>
          have ih := sortedByNumber_take (m + 1) (b :: t) h'.2
          simp only [List.take] at ih ⊢
          simp only [sortedByNumber, Bool.and_eq_true]
          exact ⟨h'.1, ih⟩

/-- In a non-final pass, one `process_chunk` call either leaves the
artifact unchanged or appends exactly the "No clauses found in chunk"
ErrorRecord: the clause, fallback and processing-error writes are all
guarded by `if is_final_pass`, the empty-decode write is not. -/
theorem process_chunk_pass1_file (chunk role jur : String) (tot : Nat)
    (outcome : ModelOutcome) (file : List Record) :
    (process_chunk chunk role jur false tot outcome file).1 = file ∨
    (process_chunk chunk role jur false tot outcome file).1
      = file ++ [Record.error "No clauses found in chunk"] := by
  cases outcome with
  | parsed cl =>
      by_cases hcl : cl = []
      · right; simp [process_chunk, hcl]
      · left; simp [process_chunk, hcl]
  | decodeError => left; simp [process_chunk]
  | exc c m => left; simp [process_chunk]

/-- Everything the first pass writes to the artifact, beyond what was
already there, is the "No clauses found in chunk" ErrorRecord. -/
theorem run_pass_pass1_writes (role jur : String) (tot : Nat)
    (oracle : Nat → ModelOutcome) :
    ∀ (chunks : List String) (i : Nat) (file : List Record) (r : Record),
      r ∈ (run_pass role jur false tot oracle chunks i file).1 →
      r ∈ file ∨ r = Record.error "No clauses found in chunk"
  | [], _, _, _, h => Or.inl h
  | ch :: rest, i, file, r, h => by
      simp only [run_pass] at h
      have hrec := run_pass_pass1_writes role jur tot oracle rest (i + 1)
        (process_chunk ch role jur false tot (oracle i) file).1 r h
      rcases hrec with hin | he
      · rcases process_chunk_pass1_file ch role jur tot (oracle i) file with he1 | he2
        · rw [he1] at hin; exact Or.inl hin
        · rw [he2] at hin
          rcases List.mem_append.mp hin with h1 | h2
          · exact Or.inl h1
          · simp at h2; exact Or.inr h2
      · exact Or.inr he

/-- The empty pattern occurs in every character list. -/
theorem charsContain_nil_pat : ∀ l : List Char, charsContain [] l = true
  | [] => rfl
  | _ :: _ => by simp [charsContain, charsStartWith]

/-- A prefix stays a prefix after appending on the right. -/
theorem charsStartWith_append :
    ∀ (pat l y : List Char), charsStartWith pat l = true →
      charsStartWith pat (l ++ y) = true
  | [], _, _, _ => rfl
  | _ :: _, [], _, h => absurd h (by simp [charsStartWith])
  | p :: ps, c :: cs, y, h => by
      simp only [charsStartWith, Bool.and_eq_true, beq_iff_eq] at h
      simp only [List.cons_append, charsStartWith, Bool.and_eq_true, beq_iff_eq]
      exact ⟨h.1, charsStartWith_append ps cs y h.2⟩

/-- Occurrence is preserved by prepending. -/
theorem charsContain_append_left (pat : List Char) :
    ∀ (x l : List Char), charsContain pat l = true →
      charsContain pat (x ++ l) = true
  | [], _, h => h
  | c :: x', l, h => by
      simp only [List.cons_append, charsContain, Bool.or_eq_true]
      exact Or.inr (charsContain_append_left pat x' l h)

/-- Occurrence is preserved by appending. -/
theorem charsContain_append_right (pat : List Char) :
    ∀ (l y : List Char), charsContain pat l = true →
      charsContain pat (l ++ y) = true
  | [], y, h => by
      cases pat with
      | nil => simpa using charsContain_nil_pat y
      | cons p ps => exact absurd h (by simp [charsContain, charsStartWith])
  | c :: cs, y, h => by
      simp only [charsContain, Bool.or_eq_true] at h
      simp only [List.cons_append, charsContain, Bool.or_eq_true]
      rcases h with h1 | h2
      · exact Or.inl (charsStartWith_append pat (c :: cs) y h1)
      · exact Or.inr (charsContain_append_right pat cs y h2)

/-- A phrase contained in the middle factor of a concatenation is contained
in the whole concatenation. -/
theorem containsPhrase_embed (pre mid suf phrase : String)
    (h : containsPhrase mid phrase = true) :
    containsPhrase (pre ++ mid ++ suf) phrase = true := by
  unfold containsPhrase at h ⊢
  rw [String.data_append, String.data_append]
  exact charsContain_append_right _ _ _ (charsContain_append_left _ _ _ h)

set_option maxRecDepth 4000 in
/-- The final-pass instruction carries the suggestion-requesting wording. -/
theorem finalPromptMid_requests_suggestion :
    containsPhrase finalPromptMid
      "concise negotiation suggestion for very high risk" = true := by
  decide

set_option maxRecDepth 4000 in
/-- The standard instruction carries the NIL-for-all-risks wording. -/
theorem standardPromptMid_requests_nil :
    containsPhrase standardPromptMid "\x27NIL\x27 for all risks" = true := by
  decide

set_option maxRecDepth 4000 in
/-- The two fixed instruction segments have different lengths, so the two
prompt variants can never coincide. -/
theorem promptMid_length_ne : finalPromptMid.length ≠ standardPromptMid.length := by
  decide

/-- Had the attempt body been allowed to raise, the configured policy would
have re-run a transient failure until the 3-attempt stop; recorded here to
document what the decorator was configured to do. -/
theorem tenacity_exhausts_on_transient (msg : String) :
    tenacity_call process_chunk_retry_policy
      (fun _ => (PyResult.raised ExcClass.resourceExhausted msg :
        PyResult (List Record × List Record)))
      = (PyResult.raised ExcClass.resourceExhausted msg, 3) := rfl

/-! ## The claims -/

/-- Claim C1, counterexample to the claim as stated: in a run whose pass-1
non-error Clause count exceeds 50 (here 51), the very-high-risk subset of
the final artifact is not sorted ascending by `clause_number`: the
refinement pass writes every pass-2 clause to the artifact incrementally
(in model order, "2" before "1") before the sorted selection block is
appended, so the implication of the claim fails. -/
theorem c1_claim_counterexample :
    ¬ (total_clauses envC1 > 50 →
        sortedByNumber (veryHighOf (process_document envC1).file) = true) := by
  decide

/-- Claim C1, amended: when the pass-1 non-error Clause count exceeds 50,
the refinement pass runs, the artifact is truncated before it begins (the
final artifact is exactly the pass-2 incremental writes followed by the
final appended block, with no pass-1 content), and the selected very-high
candidate block has at most 50 members sorted ascending by `clause_number`
as strings; the sortedness and the 50-bound hold of that selected block,
not of the full very-high subset of the artifact, which also retains the
unsorted incremental pass-2 copies. -/
theorem c1_amended_refinement_artifact (env : RunEnv)
    (hT : env.text.isEmpty = false) (hgt : total_clauses env > 50) :
    (process_document env).refined = true
  ∧ (process_document env).file = (second_pass env).1 ++
      ((other_clauses env ++ very_high_clauses env).filter (fun c => !c.isError))
  ∧ (very_high_clauses env).length ≤ 50
  ∧ sortedByNumber (very_high_clauses env) = true := by
  refine ⟨?_, ?_, ?_, ?_⟩
  · simp [process_document, hT, hgt]
  · simp [process_document, hT, hgt]
  · exact List.length_take_le 50 _
  · exact sortedByNumber_take 50 _ (sortedByNumber_py_sorted _)

/-- Claim C1, witness: the amended statement holds of the concrete
refinement run `envC1`. -/
theorem c1_amended_refinement_artifact_witness :
    (process_document envC1).refined = true
  ∧ (process_document envC1).file = (second_pass envC1).1 ++
      ((other_clauses envC1 ++ very_high_clauses envC1).filter (fun c => !c.isError))
  ∧ (very_high_clauses envC1).length ≤ 50
  ∧ sortedByNumber (very_high_clauses envC1) = true :=
  c1_amended_refinement_artifact envC1 (by decide) (by decide)

/-- Claim C2, counterexample to the claim as stated: when a pass-1 chunk
decodes to the empty JSON list, the "No clauses found in chunk" ErrorRecord
it writes is never removed — the simple path does not truncate the artifact
again — so the final artifact differs from the pass-1 Clauses with
ErrorRecords excluded. -/
theorem c2_claim_counterexample :
    ¬ (¬ total_clauses envC2 > 50 →
        (process_document envC2).file
          = (all_clauses envC2).filter (fun c => !c.isError)) := by
  decide

/-- Claim C2, amended: when the pass-1 non-error Clause count is at most
50, no refinement pass occurs and the final artifact is the pass-1 writes
(each of which is a "No clauses found in chunk" ErrorRecord) followed by
the pass-1 Clauses in their original chunk order with ErrorRecords
excluded; the returned sequence is the unfiltered pass-1 accumulation. -/
theorem c2_amended_simple_path (env : RunEnv)
    (hT : env.text.isEmpty = false) (hle : ¬ total_clauses env > 50) :
    (process_document env).refined = false
  ∧ (process_document env).file = (first_pass env).1 ++
      ((all_clauses env).filter (fun c => !c.isError))
  ∧ ∀ r ∈ (first_pass env).1, r = Record.error "No clauses found in chunk" := by
  refine ⟨?_, ?_, ?_⟩
  · simp [process_document, hT, hle]
  · simp [process_document, hT, hle]
  · intro r hr
    rcases run_pass_pass1_writes env.role env.jurisdiction 0 env.pass1
      env.chunks 0 [] r hr with h1 | h2
    · simp at h1
    · exact h2

/-- Claim C2, witness: the amended artifact equation holds of the concrete
simple-path run `envC2`. -/
theorem c2_amended_simple_path_witness :
    (process_document envC2).file = (first_pass envC2).1 ++
      ((all_clauses envC2).filter (fun c => !c.isError)) :=
  (c2_amended_simple_path envC2 (by decide) (by decide)).2.1

/-- Claim C3: the retry decorator on `process_chunk` is dead code.  The
policy does designate `ResourceExhausted` and `ServiceUnavailable` as
retryable, but the `except Exception` clause inside the function body
catches every exception — those two classes included — and converts it
into a normal return, so tenacity always observes a normal return on the
first attempt: the decorated call makes exactly one attempt and never
retries, for every possible sequence of per-attempt model outcomes. -/
theorem c3_retry_never_fires (chunk role jur : String) (fin : Bool) (tot : Nat)
    (outcomes : Nat → ModelOutcome) (file : List Record) :
    process_chunk_retried chunk role jur fin tot outcomes file
      = (PyResult.ok (process_chunk chunk role jur fin tot (outcomes 1) file), 1)
  ∧ process_chunk_retry_policy.retry_on ExcClass.resourceExhausted = true
  ∧ process_chunk_retry_policy.retry_on ExcClass.serviceUnavailable = true :=
  ⟨rfl, rfl, rfl⟩

/-- Claim C4: for a chunk whose cleaned model response fails JSON decoding,
`process_chunk` returns exactly one fallback Clause with
`clause_number="unknown"`, `clause_risk="medium"`, `negotiation="NIL"` and
`clause_text` equal to the first 1000 characters of the chunk text. -/
theorem c4_decode_failure_fallback (chunk role jur : String) (fin : Bool)
    (tot : Nat) (file : List Record) :
    (process_chunk chunk role jur fin tot ModelOutcome.decodeError file).2
      = [Record.clause { clause_number := "unknown",
                         clause_text := chunk.take 1000,
                         clause_risk := "medium",
                         negotiation := "NIL" }] := rfl

/-- Claim C5, counterexample to the claim as stated: in the 60-chunk
scenario with one very-high clause "1".."60" per chunk, the selected
very-high subset does have exactly 50 entries, but their clause numbers are
not "1" through "50": the code keeps the 50 lexicographically smallest
strings, which drop "6", "7", "8", "9" and keep "51".."54". -/
theorem c5_scenario_counterexample :
    total_clauses envC5 > 50
  ∧ (very_high_clauses envC5).length = 50
  ∧ (very_high_clauses envC5).map Record.number ≠ c5_claimed_numbers := by
  decide

/-- Claim C5, amended: in that scenario the final very-high subset has
exactly 50 entries, namely the 50 lexicographically smallest of the strings
"1".."60" in sorted order — "1", "10".."19", "2", "20".."29", "3",
"30".."39", "4", "40".."49", "5", "50".."54" — with "6", "7", "8", "9" and
"55".."60" dropped. -/
theorem c5_amended_selection :
    total_clauses envC5 > 50
  ∧ (very_high_clauses envC5).map Record.number = c5_actual_numbers
  ∧ (very_high_clauses envC5).length = 50 := by
  decide

/-- Claim C6, counterexample to the claim as stated: in a refinement run
whose single pass-2 invocation raises, the "Processing error" ErrorRecord
written incrementally by the refinement pass persists in the final
artifact — nothing truncates the artifact after the refinement pass, the
final block is appended after the incremental writes. -/
theorem c6_claim_counterexample :
    total_clauses envC6 > 50
  ∧ (process_document envC6).refined = true
  ∧ (process_document envC6).file.any Record.isError = true := by
  decide

/-- Claim C6, amended: the final artifact is the writes made during the
operative pass (which may contain ErrorRecords, and persist) followed by
the final appended block, and only that final appended block is guaranteed
free of ErrorRecords, in both the refinement and the simple path. -/
theorem c6_amended_error_persistence (env : RunEnv)
    (hT : env.text.isEmpty = false) :
    (process_document env).file = pass_writes env ++ final_block env
  ∧ ∀ r ∈ final_block env, r.isError = false := by
  constructor
  · by_cases hgt : total_clauses env > 50
    · simp [process_document, pass_writes, final_block, hT, hgt]
    · simp [process_document, pass_writes, final_block, hT, hgt]
  · intro r hr
    have := (List.mem_filter.mp hr).2
    simpa using this

/-- Claim C6, witness: the amended artifact decomposition holds of the
concrete refinement run `envC6`. -/
theorem c6_amended_error_persistence_witness :
    (process_document envC6).file = pass_writes envC6 ++ final_block envC6 :=
  (c6_amended_error_persistence envC6 (by decide)).1

/-- Claim C7, counterexample to the claim as stated: in a refinement run
the value returned to the caller is not the merged pass-1 + selected pass-2
sequence minus ErrorRecords — `process_document` returns `all_clauses`,
the raw pass-1 accumulation, in every branch. -/
theorem c7_claim_counterexample :
    total_clauses envC7 > 50
  ∧ (process_document envC7).ret ≠ claimed_return envC7 := by
  decide

/-- Claim C7, amended: in every run the sequence returned to the caller is
the unfiltered pass-1 accumulation (empty when no text was extracted),
whether or not the refinement pass ran; ErrorRecords are not removed from
it and the merged pass-2 selection is only written to the artifact, never
returned. -/
theorem c7_amended_return_value (env : RunEnv) :
    (process_document env).ret
      = if env.text.isEmpty then [] else all_clauses env := by
  by_cases hT : env.text.isEmpty
  · simp [process_document, hT]
  · by_cases hgt : total_clauses env > 50
    · simp [process_document, hT, hgt]
    · simp [process_document, hT, hgt]

/-- Claim C8: the prompt builder is a pure function of its inputs; when
`is_final_pass` is true and `total_clause_count > 50` the built instruction
carries the request for a concrete negotiation suggestion for
very-high-risk clauses, in every other case it carries the request for the
literal NIL marker for every clause regardless of risk, and the two
variants are distinct for all inputs. -/
theorem c8_prompt_variant_selection (role jur chunk : String) (fin : Bool) (tot : Nat) :
    (fin = true ∧ tot > 50 →
      requestsNegotiationSuggestion (build_prompt role jur chunk fin tot) = true)
  ∧ (¬(fin = true ∧ tot > 50) →
      requestsNILForAll (build_prompt role jur chunk fin tot) = true)
  ∧ "As a " ++ role ++ " in " ++ jur ++ finalPromptMid ++ chunk
      ≠ "As a " ++ role ++ " in " ++ jur ++ standardPromptMid ++ chunk := by
  refine ⟨?_, ?_, ?_⟩
  · intro hc
    rw [build_prompt, if_pos hc]
    exact containsPhrase_embed _ _ _ _ finalPromptMid_requests_suggestion
  · intro hc
    rw [build_prompt, if_neg hc]
    exact containsPhrase_embed _ _ _ _ standardPromptMid_requests_nil
  · intro heq
    have hlen := congrArg String.length heq
    simp only [String.length_append] at hlen
    have := promptMid_length_ne
    omega

/-- Claim C8, witness: at concrete inputs the final-pass prompt requests a
negotiation suggestion and the non-final prompt requests NIL. -/
theorem c8_prompt_variant_selection_witness :
    requestsNegotiationSuggestion (build_prompt "client" "India" "txt" true 51) = true
  ∧ requestsNILForAll (build_prompt "client" "India" "txt" false 51) = true :=
  ⟨(c8_prompt_variant_selection "client" "India" "txt" true 51).1 ⟨rfl, by decide⟩,
   (c8_prompt_variant_selection "client" "India" "txt" false 51).2.1 (by simp)⟩

/-- Claim C9: for every document from which no text can be extracted, the
run short-circuits — the artifact contains exactly the single line
with the "No text extracted from document" ErrorRecord and the returned
Clause sequence is empty. -/
theorem c9_empty_document (env : RunEnv) (h : env.text.isEmpty = true) :
    (process_document env).file = [Record.error "No text extracted from document"]
  ∧ (process_document env).ret = [] := by
  constructor <;> simp [process_document, h]

/-- Claim C9, witness: the statement holds of the concrete empty-text run
`envC9`. -/
theorem c9_empty_document_witness :
    (process_document envC9).file = [Record.error "No text extracted from document"]
  ∧ (process_document envC9).ret = [] :=
  c9_empty_document envC9 (by decide)

/-- Claim C10: whenever the orchestrator triggers the refinement pass,
there is one pass-2 invocation per chunk, each receives
`is_final_pass=True` together with the fixed pass-1 non-error count as
`total_clauses`, that count exceeds 50, and consequently the prompt built
for every chunk of the second pass is the negotiation-suggestion
variant. -/
theorem c10_refinement_invocation_invariant (env : RunEnv)
    (hT : env.text.isEmpty = false)
    (href : (process_document env).refined = true) :
    (process_document env).pass2Params.length = env.chunks.length
  ∧ ∀ p ∈ (process_document env).pass2Params,
      p.is_final_pass = true
      ∧ p.total_clauses = total_clauses env
      ∧ p.total_clauses > 50
      ∧ build_prompt env.role env.jurisdiction p.chunk p.is_final_pass p.total_clauses
          = "As a " ++ env.role ++ " in " ++ env.jurisdiction ++ finalPromptMid ++ p.chunk := by
  by_cases hgt : total_clauses env > 50
  · constructor
    · simp [process_document, hT, hgt]
    · intro p hp
      simp [process_document, hT, hgt] at hp
      obtain ⟨ch, _, rfl⟩ := hp
      refine ⟨rfl, rfl, hgt, ?_⟩
      rw [build_prompt, if_pos ⟨rfl, hgt⟩]
  · exfalso
    simp [process_document, hT, hgt] at href

/-- Claim C10, witness: in the concrete refinement run `envC10` the
refinement pass makes one invocation per chunk. -/
theorem c10_refinement_invocation_invariant_witness :
    (process_document envC10).pass2Params.length = envC10.chunks.length :=
  (c10_refinement_invocation_invariant envC10 (by decide) (by decide)).1
